import Mathlib

/-!
Verification of the goethe pluggable compression subsystem.

This development shallowly embeds the compression subsystem of the goethe
repository: the null and zstd compression backends, the backend base-class
container overloads and statistics-wrapped entry points, the compression
factory, the CompressionManager facade, and the statistics engine
(OperationStats, BackendStats, StatisticsManager, StatisticsScope).

Modelling conventions:
- raw byte buffers (`const uint8_t*` + size / `std::vector<uint8_t>`) are
  `List Byte` with `Byte := Fin 256`; `std::string` payloads are byte lists
  as well (the C++ code only reinterprets the bytes);
- functions that may throw `CompressionError` return
  `Except CompressionError _`; `throw` is `Except.error`, a normal return is
  `Except.ok`;
- `double` arithmetic of the statistics code is modelled over `ℚ` with the
  same case analysis as the source (explicit zero-denominator guards);
- the null-pointer precondition (`validate_input`) concerns raw pointers and
  has no counterpart for `List` inputs, where every buffer is valid; the
  size-zero early returns of the source are kept explicitly;
- `std::chrono` durations are nanosecond counts (`Nat`).
-/

namespace goethe

abbrev Byte := Fin 256

/-- Error type of the subsystem: every failure is a `CompressionError`
carrying a message, mirroring the single exception class of the source. -/
structure CompressionError where
  message : String
  deriving DecidableEq, Repr

/-! ## Null backend

Embedded from `NullCompressionBackend::compress` / `decompress` in the
repository (null backend implementation file): compress byte-copies the
input; decompress first runs the all-same-suspicious-byte heuristic and
then byte-copies the input. -/

namespace NullCompressionBackend

/-- Heuristic corruption test of `NullCompressionBackend::decompress`:
the input is longer than one byte, every byte equals the first byte, and
that byte is `0xFF` or `0x00`. -/
def suspicious (data : List Byte) : Bool :=
  match data with
  | [] => false
  | b :: rest =>
      decide (1 < (b :: rest).length) && rest.all (fun x => x == b) &&
        (b == (255 : Byte) || b == (0 : Byte))

/-- Embeds `NullCompressionBackend::compress(const uint8_t*, size_t)`:
returns an exact byte copy of the input (empty for empty input). -/
def compress (data : List Byte) : Except CompressionError (List Byte) :=
  if data.length = 0 then Except.ok []
  else Except.ok data

/-- Embeds `NullCompressionBackend::decompress(const uint8_t*, size_t)`:
empty input returns empty; a suspicious uniform buffer throws
`CompressionError`; otherwise the input is byte-copied. -/
def decompress (data : List Byte) : Except CompressionError (List Byte) :=
  if data.length = 0 then Except.ok []
  else if suspicious data then
    Except.error ⟨"Null backend detected potentially invalid data"⟩
  else Except.ok data

end NullCompressionBackend

/-! ## Zstd codec model and backend -/

/-- Modelled from the spec: compressed buffers produced or consumed by the
external ZSTD codec library, whose code is not part of this repository.
The wire format is opaque to the repository (a non-goal of the spec), so a
compressed buffer is modelled by what the codec reports about it:
an empty buffer, a valid single-shot frame carrying its declared content
size and its payload, a streaming frame whose content size is unknown, or
a buffer that is not a zstd frame at all. -/
inductive ZstdBuffer where
  | empty
  | frame (declaredSize : Nat) (payload : List Byte)
  | unknownSize
  | invalid
  deriving DecidableEq, Repr

/-- Modelled from the spec: `ZSTD_compressCCtx` of the external codec
library. Per the spec, compression writes a single-shot frame that records
its declared content size in the header and is lossless, so the frame
carries the input bytes as payload and their count as declared size. The
compression level changes the encoding, never the decoded content. -/
def ZSTD_compressCCtx (_level : Int) (data : List Byte) : ZstdBuffer :=
  ZstdBuffer.frame data.length data

/-- Result of `ZSTD_getFrameContentSize`: a size, or the codec's
`CONTENTSIZE_UNKNOWN` / `CONTENTSIZE_ERROR` sentinels. -/
inductive FrameContentSize where
  | size (n : Nat)
  | contentUnknown
  | contentError
  deriving DecidableEq, Repr

/-- Modelled from the spec: `ZSTD_getFrameContentSize` of the external
codec library reads the declared content size from a frame header, and
reports the unknown / error sentinels for streaming frames and non-frames. -/
def ZSTD_getFrameContentSize (buf : ZstdBuffer) : FrameContentSize :=
  match buf with
  | ZstdBuffer.empty => FrameContentSize.contentError
  | ZstdBuffer.frame n _ => FrameContentSize.size n
  | ZstdBuffer.unknownSize => FrameContentSize.contentUnknown
  | ZstdBuffer.invalid => FrameContentSize.contentError

/-- Modelled from the spec: `ZSTD_decompressDCtx` of the external codec
library recovers the payload of a valid frame and reports an error code
otherwise. The returned value is the decompressed byte sequence; the
source compares its length against the declared size. -/
def ZSTD_decompressDCtx (buf : ZstdBuffer) : Except CompressionError (List Byte) :=
  match buf with
  | ZstdBuffer.frame _ payload => Except.ok payload
  | _ => Except.error ⟨"ZSTD decompression failed"⟩

namespace ZstdCompressionBackend

/-- Embeds `ZstdCompressionBackend::compress(const uint8_t*, size_t)`
(zstd implementation file): empty input returns an empty buffer; otherwise
the data is compressed with `ZSTD_compressCCtx` at the current level. In
the codec model `ZSTD_compressCCtx` never reports an error on valid input,
so the `check_zstd_error` branch is not reachable here; the bound
allocation and the shrink to actual size are memory management without
functional content over lists. -/
def compress (level : Int) (data : List Byte) : Except CompressionError ZstdBuffer :=
  if data.length = 0 then Except.ok ZstdBuffer.empty
  else Except.ok (ZSTD_compressCCtx level data)

/-- Embeds `ZstdCompressionBackend::decompress(const uint8_t*, size_t)`:
empty input returns empty; a buffer whose declared content size is the
error sentinel throws "Invalid ZSTD frame"; the unknown sentinel throws
"Unknown decompressed size"; otherwise the buffer is decompressed and the
actual length is compared against the declared size. -/
def decompress (data : ZstdBuffer) : Except CompressionError (List Byte) :=
  if data = ZstdBuffer.empty then Except.ok []
  else
    match ZSTD_getFrameContentSize data with
    | FrameContentSize.contentError => Except.error ⟨"Invalid ZSTD frame"⟩
    | FrameContentSize.contentUnknown => Except.error ⟨"Unknown decompressed size"⟩
    | FrameContentSize.size declaredSize =>
        match ZSTD_decompressDCtx data with
        | Except.error e => Except.error e
        | Except.ok decompressed =>
            if decompressed.length ≠ declaredSize then
              Except.error ⟨"Decompressed size mismatch"⟩
            else Except.ok decompressed

end ZstdCompressionBackend

/-! ## Statistics layer

Embedded from the statistics implementation file (OperationStats,
BackendStats, StatisticsManager, StatisticsScope) and the statistics
header (`create_operation_stats`). `double` computations are modelled over
`ℚ` with the zero-denominator guards of the source made explicit;
`std::atomic<uint64_t>` counters are modelled as `Nat` updated through
64-bit wrap-around addition (`u64add`), matching `fetch_add` semantics. -/

/-- Addition of `uint64_t` values: wraps modulo `2^64`, as `fetch_add`
and plain unsigned addition do in the source. -/
def u64add (a b : Nat) : Nat := (a + b) % 2 ^ 64

/-- Embeds `OperationStats`: one operation's sizes, duration (nanosecond
count of the `std::chrono` duration), success flag and error message. -/
structure OperationStats where
  input_size : Nat
  output_size : Nat
  duration_ns : Nat
  success : Bool
  error_message : String
  deriving DecidableEq, Repr

namespace OperationStats

/-- Embeds `OperationStats::compression_ratio`: `output/input`, 0 when the
input size is 0. -/
def compression_ratio (s : OperationStats) : ℚ :=
  if s.input_size = 0 then 0
  else (s.output_size : ℚ) / (s.input_size : ℚ)

/-- Embeds `OperationStats::compression_rate`: `(1 - ratio) * 100`. -/
def compression_rate (s : OperationStats) : ℚ :=
  (1 - s.compression_ratio) * 100

/-- Embeds `OperationStats::throughput_mbps`: 0 when the duration is 0,
otherwise `(input_size / (1024.0 * 1024.0)) / (duration / 1e9)` — note the
source divides the byte count by `1024.0 * 1024.0` here. -/
def throughput_mbps (s : OperationStats) : ℚ :=
  if s.duration_ns = 0 then 0
  else ((s.input_size : ℚ) / (1024 * 1024)) / ((s.duration_ns : ℚ) / 10 ^ 9)

/-- Embeds `OperationStats::throughput_mibps`: 0 when the duration is 0,
otherwise `(input_size / (1024.0 * 1024.0)) / (duration / 1e9)`. -/
def throughput_mibps (s : OperationStats) : ℚ :=
  if s.duration_ns = 0 then 0
  else ((s.input_size : ℚ) / (1024 * 1024)) / ((s.duration_ns : ℚ) / 10 ^ 9)

end OperationStats

/-- Embeds `BackendStats`: per-backend aggregate counters. The `reset()`
defaults of the source's field initializers are the `Nat` zeroes here. -/
structure BackendStats where
  backend_name : String := ""
  backend_version : String := ""
  total_compressions : Nat := 0
  total_decompressions : Nat := 0
  successful_compressions : Nat := 0
  successful_decompressions : Nat := 0
  failed_compressions : Nat := 0
  failed_decompressions : Nat := 0
  total_input_size : Nat := 0
  total_output_size : Nat := 0
  total_compressed_size : Nat := 0
  total_decompressed_size : Nat := 0
  total_compression_time_ns : Nat := 0
  total_decompression_time_ns : Nat := 0
  deriving DecidableEq, Repr

namespace BackendStats

/-- Embeds `BackendStats::success_rate`: 100 when no operation was
recorded, otherwise `successful_ops / total_ops * 100` over compressions
and decompressions together. -/
def success_rate (bs : BackendStats) : ℚ :=
  let total_ops := u64add bs.total_compressions bs.total_decompressions
  if total_ops = 0 then 100
  else
    let successful_ops := u64add bs.successful_compressions bs.successful_decompressions
    ((successful_ops : ℚ) / (total_ops : ℚ)) * 100

/-- Embeds `BackendStats::reset`: every counter is stored as 0; the name
and version strings are not touched by `reset()`. -/
def reset (bs : BackendStats) : BackendStats :=
  { backend_name := bs.backend_name, backend_version := bs.backend_version }

/-- Counter updates of `StatisticsManager::record_compression` applied to
one `BackendStats` (the same sequence of `fetch_add`s is performed on the
named backend's entry and on the global aggregate). -/
def applyCompression (bs : BackendStats) (op : OperationStats) : BackendStats :=
  let bs := { bs with
    total_compressions := u64add bs.total_compressions 1
    total_input_size := u64add bs.total_input_size op.input_size
    total_output_size := u64add bs.total_output_size op.output_size
    total_compression_time_ns := u64add bs.total_compression_time_ns op.duration_ns }
  if op.success then
    { bs with
      successful_compressions := u64add bs.successful_compressions 1
      total_compressed_size := u64add bs.total_compressed_size op.output_size }
  else
    { bs with failed_compressions := u64add bs.failed_compressions 1 }

/-- Counter updates of `StatisticsManager::record_decompression` applied
to one `BackendStats`. -/
def applyDecompression (bs : BackendStats) (op : OperationStats) : BackendStats :=
  let bs := { bs with
    total_decompressions := u64add bs.total_decompressions 1
    total_input_size := u64add bs.total_input_size op.input_size
    total_output_size := u64add bs.total_output_size op.output_size
    total_decompression_time_ns := u64add bs.total_decompression_time_ns op.duration_ns }
  if op.success then
    { bs with
      successful_decompressions := u64add bs.successful_decompressions 1
      total_decompressed_size := u64add bs.total_decompressed_size op.output_size }
  else
    { bs with failed_decompressions := u64add bs.failed_decompressions 1 }

end BackendStats

/-- State of the `StatisticsManager` singleton: the enabled gate, the
name-keyed `BackendStats` map (an association list standing for the
`std::map`; `std::map::operator[]` default-constructs a missing entry) and
the global aggregate. -/
structure StatisticsManager where
  enabled : Bool := true
  backends : List (String × BackendStats) := []
  global : BackendStats := {}
  deriving DecidableEq, Repr

namespace StatisticsManager

/-- Lookup in the backend map. -/
def lookupStats (m : List (String × BackendStats)) (name : String) :
    Option BackendStats :=
  (m.find? (fun p => p.1 == name)).map Prod.snd

/-- Store into the backend map: replace the entry if present, insert it
otherwise (the lazy insertion of `backend_stats_[backend_name]`). -/
def storeStats (m : List (String × BackendStats)) (name : String)
    (bs : BackendStats) : List (String × BackendStats) :=
  match m with
  | [] => [(name, bs)]
  | (k, v) :: rest =>
      if k == name then (k, bs) :: rest
      else (k, v) :: storeStats rest name bs

/-- Embeds `StatisticsManager::enable_statistics`. -/
def enable_statistics (sm : StatisticsManager) (enable : Bool) :
    StatisticsManager :=
  { sm with enabled := enable }

/-- Embeds `StatisticsManager::is_statistics_enabled`. -/
def is_statistics_enabled (sm : StatisticsManager) : Bool := sm.enabled

/-- Embeds `StatisticsManager::record_compression`: a no-op when disabled;
otherwise the named entry (default-constructed if absent) gets its name
and version set and its compression counters bumped, and the global
aggregate gets the same counter updates. -/
def record_compression (sm : StatisticsManager) (backend_name : String)
    (backend_version : String) (stats : OperationStats) : StatisticsManager :=
  if ¬ sm.enabled then sm
  else
    let bs := (lookupStats sm.backends backend_name).getD {}
    let bs := { bs with
      backend_name := backend_name, backend_version := backend_version }
    let bs := bs.applyCompression stats
    { sm with
      backends := storeStats sm.backends backend_name bs
      global := sm.global.applyCompression stats }

/-- Embeds `StatisticsManager::record_decompression`. -/
def record_decompression (sm : StatisticsManager) (backend_name : String)
    (backend_version : String) (stats : OperationStats) : StatisticsManager :=
  if ¬ sm.enabled then sm
  else
    let bs := (lookupStats sm.backends backend_name).getD {}
    let bs := { bs with
      backend_name := backend_name, backend_version := backend_version }
    let bs := bs.applyDecompression stats
    { sm with
      backends := storeStats sm.backends backend_name bs
      global := sm.global.applyDecompression stats }

/-- Embeds `StatisticsManager::get_backend_stats`: the stored entry, or a
default-constructed `BackendStats` when the name is unknown. -/
def get_backend_stats (sm : StatisticsManager) (backend_name : String) :
    BackendStats :=
  (lookupStats sm.backends backend_name).getD {}

/-- Embeds `StatisticsManager::get_global_stats`. -/
def get_global_stats (sm : StatisticsManager) : BackendStats := sm.global

/-- Embeds `StatisticsManager::reset_backend_stats`: resets the entry if
present, otherwise no effect. -/
def reset_backend_stats (sm : StatisticsManager) (backend_name : String) :
    StatisticsManager :=
  match lookupStats sm.backends backend_name with
  | none => sm
  | some bs =>
      { sm with backends := storeStats sm.backends backend_name bs.reset }

/-- Embeds `StatisticsManager::reset_all_stats`: resets every entry and
the global aggregate. -/
def reset_all_stats (sm : StatisticsManager) : StatisticsManager :=
  { sm with
    backends := sm.backends.map (fun p => (p.1, p.2.reset))
    global := sm.global.reset }

end StatisticsManager

/-- Embeds `create_operation_stats` of the statistics header: packs sizes,
the timer's elapsed nanoseconds, the success flag and the message into an
`OperationStats`. -/
def create_operation_stats (input_size output_size : Nat) (elapsed_ns : Nat)
    (success : Bool) (error_message : String) : OperationStats :=
  { input_size := input_size, output_size := output_size
    duration_ns := elapsed_ns, success := success
    error_message := error_message }

/-- One call issued to `StatisticsManager::record_compression` /
`record_decompression` by a `StatisticsScope`. -/
structure RecordCall where
  backend_name : String
  backend_version : String
  is_compression : Bool
  stats : OperationStats
  deriving DecidableEq, Repr

/-- Embeds the fields of `StatisticsScope`: identity of the instrumented
operation, the sizes reported so far, outcome fields, and the `recorded`
flag. The timer is external real time; its readings enter the model as
explicit elapsed-nanosecond arguments. -/
structure StatisticsScope where
  backend_name : String
  backend_version : String
  is_compression : Bool
  input_size : Nat := 0
  output_size : Nat := 0
  success : Bool := false
  error_message : String := ""
  recorded : Bool := false
  deriving DecidableEq, Repr

namespace StatisticsScope

/-- Embeds the `StatisticsScope` constructor (the timer starts; no record
has been issued yet). -/
def init (backend_name backend_version : String) (is_compression : Bool) :
    StatisticsScope :=
  { backend_name := backend_name, backend_version := backend_version
    is_compression := is_compression }

/-- Embeds `StatisticsScope::set_sizes`. -/
def set_sizes (sc : StatisticsScope) (input_size output_size : Nat) :
    StatisticsScope :=
  { sc with input_size := input_size, output_size := output_size }

/-- Embeds `StatisticsScope::set_success`: a no-op once `recorded` is set;
otherwise it stores the outcome, issues exactly one record call built by
`create_operation_stats` from the current sizes and the timer reading
`elapsed_ns`, and sets `recorded`. The returned list holds the record
calls issued by this invocation. -/
def set_success (sc : StatisticsScope) (elapsed_ns : Nat) (success : Bool)
    (error_message : String) : StatisticsScope × List RecordCall :=
  if sc.recorded then (sc, [])
  else
    let stats := create_operation_stats sc.input_size sc.output_size
      elapsed_ns success error_message
    ({ sc with success := success, error_message := error_message
               recorded := true },
     [{ backend_name := sc.backend_name
        backend_version := sc.backend_version
        is_compression := sc.is_compression
        stats := stats }])

/-- Embeds the `StatisticsScope` destructor: if the operation never
reported an outcome, record a failure with message
"Operation not completed". -/
def destruct (sc : StatisticsScope) (elapsed_ns : Nat) :
    StatisticsScope × List RecordCall :=
  if ¬ sc.recorded then sc.set_success elapsed_ns false "Operation not completed"
  else (sc, [])

end StatisticsScope

/-! ## Backend objects, statistics-wrapped entry points, factory, manager

A live backend instance is a `BackendObj`: its concrete kind (null or
zstd), the stored compression level and the base class's
`statistics_enabled_` flag. Compressed buffers flowing out of `compress`
are plain bytes for the null backend and opaque zstd frames for the zstd
backend; the sum `Compressed` stands for the `std::vector<uint8_t>` both
produce. Wrapper-level record events (`WrapRecord`) witness which
operations issue a statistics record through a `StatisticsScope`; their
size and duration payload is settled separately at the statistics layer
(`RecordCall`). -/

/-- The two concrete backend classes registered in this repository. -/
inductive BackendKind where
  | null
  | zstd
  deriving DecidableEq, Repr

/-- Embeds `name()` of the concrete backends: "null" for the null backend
(null header), "zstd" for the zstd backend. -/
def BackendKind.name : BackendKind → String
  | BackendKind.null => "null"
  | BackendKind.zstd => "zstd"

/-- Modelled from the spec: the zstd backend's `version()` is composed
from the external library's version macros; the exact string is a property
of the linked library, not of this repository. -/
def zstdVersionString : String := "external-zstd-version"

/-- Embeds `version()` of the concrete backends: "1.0.0" for the null
backend (null header); the library version string for zstd. -/
def BackendKind.version : BackendKind → String
  | BackendKind.null => "1.0.0"
  | BackendKind.zstd => zstdVersionString

/-- Embeds `CompressionOptions` (backend header) with its field
defaults. -/
structure CompressionOptions where
  level : Int := 6
  dictionary_mode : Bool := false
  dictionary : List Byte := []
  window_log : Int := 0
  strategy : Int := 0
  deriving DecidableEq, Repr

/-- Modelled from the spec: `ZSTD_minCLevel()` of the external codec
library (the lower bound of the supported level range). -/
def ZSTD_minCLevel : Int := -131072

/-- Modelled from the spec: `ZSTD_maxCLevel()` of the external codec
library (the upper bound of the supported level range). -/
def ZSTD_maxCLevel : Int := 22

/-- A live backend instance: kind, stored compression level
(`compression_level_`), stored options (`options_`), and the base
class's `statistics_enabled_` flag (which defaults to `true` in the
backend header). -/
structure BackendObj where
  kind : BackendKind
  level : Int
  options : CompressionOptions := {}
  statsEnabled : Bool := true
  deriving DecidableEq, Repr

namespace BackendObj

/-- Embeds `set_compression_level` of the concrete backends: the null
backend ignores the level; the zstd backend validates it against the
codec's supported range and throws "Invalid compression level" outside
it, otherwise stores it and re-applies it to the context. -/
def set_compression_level (b : BackendObj) (level : Int) :
    Except CompressionError BackendObj :=
  match b.kind with
  | BackendKind.null => Except.ok b
  | BackendKind.zstd =>
      if level < ZSTD_minCLevel ∨ level > ZSTD_maxCLevel then
        Except.error ⟨"Invalid compression level: " ++ toString level⟩
      else Except.ok { b with level := level }

/-- Embeds `get_compression_level` of the concrete backends: the null
backend reports 0; the zstd backend reports `compression_level_`. -/
def get_compression_level (b : BackendObj) : Int :=
  match b.kind with
  | BackendKind.null => 0
  | BackendKind.zstd => b.level

/-- Embeds `set_options` of the concrete backends: the null backend
ignores the options; the zstd backend stores them and re-applies them to
its contexts (which affects later codec calls, not the stored state
beyond `options_`). -/
def set_options (b : BackendObj) (options : CompressionOptions) :
    Except CompressionError BackendObj :=
  match b.kind with
  | BackendKind.null => Except.ok b
  | BackendKind.zstd => Except.ok { b with options := options }

/-- Embeds `get_options` of the concrete backends: the null backend
reports a default-constructed `CompressionOptions`; the zstd backend
reports `options_`. -/
def get_options (b : BackendObj) : CompressionOptions :=
  match b.kind with
  | BackendKind.null => {}
  | BackendKind.zstd => b.options

end BackendObj

/-- A compressed buffer (`std::vector<uint8_t>`) as produced by a
backend: plain bytes from the null backend, an opaque zstd frame from the
zstd backend. -/
inductive Compressed where
  | raw (bytes : List Byte)
  | zframe (buf : ZstdBuffer)
  deriving DecidableEq, Repr

/-- Emptiness of a compressed buffer (`data.empty()` in the source): the
null backend's output is empty iff its byte list is; the zstd backend
returns a zero-length buffer exactly for empty input, while a valid frame
always carries a header and is never zero bytes (modelled from the spec's
frame description). -/
def Compressed.isEmptyBytes : Compressed → Bool
  | Compressed.raw bytes => bytes.isEmpty
  | Compressed.zframe ZstdBuffer.empty => true
  | Compressed.zframe _ => false

namespace BackendObj

/-- Dispatch of the virtual raw `compress(const uint8_t*, size_t)` on the
current backend instance — the call the manager's pointer overload makes.
No statistics are involved on this path: the concrete `compress` bodies
never touch the `StatisticsManager`. -/
def compressP (b : BackendObj) (data : List Byte) :
    Except CompressionError Compressed :=
  match b.kind with
  | BackendKind.null => (NullCompressionBackend.compress data).map Compressed.raw
  | BackendKind.zstd =>
      (ZstdCompressionBackend.compress b.level data).map Compressed.zframe

/-- Dispatch of the virtual raw `decompress(const uint8_t*, size_t)` on
the current backend instance. Feeding one backend's output bytes to the
other backend reinterprets them through the opaque wire format, which the
codec model does not describe; those cross-kind cases are modelled as
codec errors and are exercised by no claim. -/
def decompressP (b : BackendObj) (data : Compressed) :
    Except CompressionError (List Byte) :=
  match b.kind, data with
  | BackendKind.null, Compressed.raw bytes =>
      NullCompressionBackend.decompress bytes
  | BackendKind.zstd, Compressed.zframe buf =>
      ZstdCompressionBackend.decompress buf
  | BackendKind.null, Compressed.zframe _ =>
      Except.error ⟨"modelled: foreign buffer bytes are outside the codec model"⟩
  | BackendKind.zstd, Compressed.raw bytes =>
      if bytes.isEmpty then Except.ok []
      else Except.error ⟨"modelled: foreign buffer bytes are outside the codec model"⟩

end BackendObj

/-- A record issued by the statistics-wrapped entry points
`compress_with_statistics` / `decompress_with_statistics`: which backend,
which operation direction, and the outcome that the `StatisticsScope`
records (success with the result sizes, or the caught exception message).
The numeric payload of a record is modelled at the statistics layer. -/
structure WrapRecord where
  backend_name : String
  backend_version : String
  is_compression : Bool
  success : Bool
  error_message : String
  deriving DecidableEq, Repr

namespace BackendObj

/-- Embeds `CompressionBackend::compress_with_statistics` (backend base
implementation file): when the backend's `statistics_enabled_` flag is
off, the raw `compress` is called directly and nothing is recorded; when
on, a `StatisticsScope` is opened, the raw `compress` runs, and exactly
one record is issued — success with the sizes, or the caught exception's
message followed by a rethrow. -/
def compress_with_statistics (b : BackendObj) (data : List Byte) :
    Except CompressionError Compressed × List WrapRecord :=
  if ¬ b.statsEnabled then (b.compressP data, [])
  else
    match b.compressP data with
    | Except.ok result =>
        (Except.ok result,
         [{ backend_name := b.kind.name, backend_version := b.kind.version
            is_compression := true, success := true, error_message := "" }])
    | Except.error e =>
        (Except.error e,
         [{ backend_name := b.kind.name, backend_version := b.kind.version
            is_compression := true, success := false
            error_message := e.message }])

/-- Embeds `CompressionBackend::decompress_with_statistics`. -/
def decompress_with_statistics (b : BackendObj) (data : Compressed) :
    Except CompressionError (List Byte) × List WrapRecord :=
  if ¬ b.statsEnabled then (b.decompressP data, [])
  else
    match b.decompressP data with
    | Except.ok result =>
        (Except.ok result,
         [{ backend_name := b.kind.name, backend_version := b.kind.version
            is_compression := false, success := true, error_message := "" }])
    | Except.error e =>
        (Except.error e,
         [{ backend_name := b.kind.name, backend_version := b.kind.version
            is_compression := false, success := false
            error_message := e.message }])

/-- Embeds the base-class container overload
`CompressionBackend::compress(const std::vector<uint8_t>&)`: empty input
returns an empty vector before any instrumentation; otherwise the call
routes through `compress_with_statistics`. -/
def compressVec (b : BackendObj) (data : List Byte) :
    Except CompressionError Compressed × List WrapRecord :=
  if data.isEmpty then (Except.ok (Compressed.raw []), [])
  else b.compress_with_statistics data

/-- Embeds the base-class container overload
`CompressionBackend::decompress(const std::vector<uint8_t>&)`. -/
def decompressVec (b : BackendObj) (data : Compressed) :
    Except CompressionError (List Byte) × List WrapRecord :=
  if data.isEmptyBytes then (Except.ok [], [])
  else b.decompress_with_statistics data

end BackendObj

/-! ## Factory and registry -/

/-- A factory registry entry: the backend it constructs and whether a
freshly constructed instance reports itself available. For zstd,
availability covers both the `GOETHE_ZSTD_AVAILABLE` build flag and
context creation (an unavailable zstd backend's constructor throws
`CompressionError`, which `create_backend` would also surface as a
`CompressionError`). -/
structure RegisteredBackend where
  kind : BackendKind
  available : Bool
  deriving DecidableEq, Repr

/-- Embeds `register_compression_backends` (registration glue file): the
registry holds "null" (always available) and "zstd" (available iff the
external library is present and its contexts can be created, an external
condition carried as the parameter). Re-registration overwrites with the
same constructors, so the post-registration registry is this fixed map. -/
def goetheRegistry (zstdAvailable : Bool) : List (String × RegisteredBackend) :=
  [("null", { kind := BackendKind.null, available := true }),
   ("zstd", { kind := BackendKind.zstd, available := zstdAvailable })]

/-- Fresh instance constructed by a registered creator: the zstd
constructor starts at level 6 (zstd constructor), the null backend stores
no level and reports 0; the base class flag `statistics_enabled_` starts
`true`. -/
def mkBackendObj : BackendKind → BackendObj
  | BackendKind.null => { kind := BackendKind.null, level := 0 }
  | BackendKind.zstd => { kind := BackendKind.zstd, level := 6 }

namespace CompressionFactory

/-- Embeds `CompressionFactory::create_backend`: unknown names throw
"Unknown compression backend: <name>"; a constructed backend that reports
itself unavailable throws "... is not available" (and a constructor that
throws `CompressionError` surfaces the same way); otherwise the fresh
instance is returned. -/
def create_backend (registry : List (String × RegisteredBackend))
    (name : String) : Except CompressionError BackendObj :=
  match (registry.find? (fun p => p.1 == name)).map Prod.snd with
  | none => Except.error ⟨"Unknown compression backend: " ++ name⟩
  | some r =>
      if ¬ r.available then
        Except.error ⟨"Compression backend '" ++ name ++ "' is not available"⟩
      else Except.ok (mkBackendObj r.kind)

end CompressionFactory

/-! ## CompressionManager -/

/-- State of the `CompressionManager` singleton. The source stores a
`backend_` pointer and an `initialized_` flag; in every reachable state
`initialized_` is true exactly when `backend_` is non-null (`initialize`
and a successful `switch_backend` set both; nothing unsets them), so the
state is this sum. -/
inductive ManagerState where
  | uninit
  | ready (backend : BackendObj)
  deriving DecidableEq, Repr

namespace CompressionManager

/-- Embeds `CompressionManager::is_initialized`. -/
def is_initialized : ManagerState → Bool
  | ManagerState.uninit => false
  | ManagerState.ready _ => true

/-- Embeds the pointer overload
`CompressionManager::compress(const uint8_t*, size_t)`: uninitialized
managers throw "CompressionManager not initialized"; otherwise the source
executes `return backend_->compress(data, size);` — the virtual raw
compress of the current backend, which issues no statistics record (the
second component lists the wrapper records issued, none on this path). -/
def compressP (s : ManagerState) (data : List Byte) :
    Except CompressionError Compressed × List WrapRecord :=
  match s with
  | ManagerState.uninit =>
      (Except.error ⟨"CompressionManager not initialized"⟩, [])
  | ManagerState.ready b => (b.compressP data, [])

/-- Embeds the pointer overload
`CompressionManager::decompress(const uint8_t*, size_t)`:
`return backend_->decompress(data, size);` after the initialization
check. -/
def decompressP (s : ManagerState) (data : Compressed) :
    Except CompressionError (List Byte) × List WrapRecord :=
  match s with
  | ManagerState.uninit =>
      (Except.error ⟨"CompressionManager not initialized"⟩, [])
  | ManagerState.ready b => (b.decompressP data, [])

/-- Embeds `CompressionManager::compress(const std::vector<uint8_t>&)`:
empty input returns an empty vector before the initialization check;
otherwise the pointer overload runs. -/
def compressVec (s : ManagerState) (data : List Byte) :
    Except CompressionError Compressed × List WrapRecord :=
  if data.isEmpty then (Except.ok (Compressed.raw []), [])
  else compressP s data

/-- Embeds `CompressionManager::decompress(const std::vector<uint8_t>&)`. -/
def decompressVec (s : ManagerState) (data : Compressed) :
    Except CompressionError (List Byte) × List WrapRecord :=
  if data.isEmptyBytes then (Except.ok [], [])
  else decompressP s data

/-- Embeds `CompressionManager::compress(const std::string&)`: the string
overload reinterprets the characters as bytes; empty input returns an
empty vector before the initialization check. -/
def compressStr (s : ManagerState) (data : List Byte) :
    Except CompressionError Compressed × List WrapRecord :=
  if data.isEmpty then (Except.ok (Compressed.raw []), [])
  else compressP s data

/-- Embeds `CompressionManager::get_backend_name`: "uninitialized" when
not initialized, otherwise the backend's `name()`; the method never
throws, so the result is always `Except.ok`. -/
def get_backend_name (s : ManagerState) : Except CompressionError String :=
  match s with
  | ManagerState.uninit => Except.ok "uninitialized"
  | ManagerState.ready b => Except.ok b.kind.name

/-- Embeds `CompressionManager::get_backend_version`: "unknown" when not
initialized, otherwise the backend's `version()`. -/
def get_backend_version (s : ManagerState) : Except CompressionError String :=
  match s with
  | ManagerState.uninit => Except.ok "unknown"
  | ManagerState.ready b => Except.ok b.kind.version

/-- Embeds `CompressionManager::set_compression_level`: throws when not
initialized, otherwise delegates to the backend. -/
def set_compression_level (s : ManagerState) (level : Int) :
    Except CompressionError ManagerState :=
  match s with
  | ManagerState.uninit =>
      Except.error ⟨"CompressionManager not initialized"⟩
  | ManagerState.ready b => (b.set_compression_level level).map ManagerState.ready

/-- Embeds `CompressionManager::get_compression_level`: throws when not
initialized, otherwise delegates to the backend. -/
def get_compression_level (s : ManagerState) : Except CompressionError Int :=
  match s with
  | ManagerState.uninit =>
      Except.error ⟨"CompressionManager not initialized"⟩
  | ManagerState.ready b => Except.ok b.get_compression_level

/-- Embeds `CompressionManager::set_options`: throws when not
initialized, otherwise delegates to the backend. -/
def set_options (s : ManagerState) (options : CompressionOptions) :
    Except CompressionError ManagerState :=
  match s with
  | ManagerState.uninit =>
      Except.error ⟨"CompressionManager not initialized"⟩
  | ManagerState.ready b => (b.set_options options).map ManagerState.ready

/-- Embeds `CompressionManager::get_options`: throws when not
initialized, otherwise delegates to the backend. -/
def get_options (s : ManagerState) : Except CompressionError CompressionOptions :=
  match s with
  | ManagerState.uninit =>
      Except.error ⟨"CompressionManager not initialized"⟩
  | ManagerState.ready b => Except.ok b.get_options

/-- Embeds `CompressionManager::enable_statistics`: sets the backend's
flag only when initialized, and always sets the `StatisticsManager`
gate; the method performs no initialization check and never throws. -/
def enable_statistics (s : ManagerState) (sm : StatisticsManager)
    (enable : Bool) : Except CompressionError (ManagerState × StatisticsManager) :=
  let s' := match s with
    | ManagerState.uninit => ManagerState.uninit
    | ManagerState.ready b => ManagerState.ready { b with statsEnabled := enable }
  Except.ok (s', sm.enable_statistics enable)

/-- Embeds `CompressionManager::is_statistics_enabled`: delegates to the
`StatisticsManager` without any initialization check. -/
def is_statistics_enabled (_s : ManagerState) (sm : StatisticsManager) :
    Except CompressionError Bool :=
  Except.ok sm.is_statistics_enabled

/-- Embeds `CompressionManager::get_statistics`: a default-constructed
`BackendStats` when not initialized (no throw), otherwise the
`StatisticsManager` entry for the current backend's name. -/
def get_statistics (s : ManagerState) (sm : StatisticsManager) :
    Except CompressionError BackendStats :=
  match s with
  | ManagerState.uninit => Except.ok {}
  | ManagerState.ready b => Except.ok (sm.get_backend_stats b.kind.name)

/-- Embeds `CompressionManager::get_global_statistics`: delegates to the
`StatisticsManager` without any initialization check. -/
def get_global_statistics (_s : ManagerState) (sm : StatisticsManager) :
    Except CompressionError BackendStats :=
  Except.ok sm.get_global_stats

/-- Embeds `CompressionManager::reset_statistics`: resets the current
backend's entry when initialized, does nothing otherwise; never throws. -/
def reset_statistics (s : ManagerState) (sm : StatisticsManager) :
    Except CompressionError StatisticsManager :=
  match s with
  | ManagerState.uninit => Except.ok sm
  | ManagerState.ready b => Except.ok (sm.reset_backend_stats b.kind.name)

/-- Embeds `CompressionManager::reset_global_statistics`: delegates to
`StatisticsManager::reset_all_stats` without any initialization check. -/
def reset_global_statistics (_s : ManagerState) (sm : StatisticsManager) :
    Except CompressionError StatisticsManager :=
  Except.ok sm.reset_all_stats

/-- Embeds `CompressionManager::switch_backend`: backends are
(re-)registered, then the named backend is constructed; on success it
replaces the current one and `initialized_` is set; a `CompressionError`
is caught and the previous state kept. -/
def switch_backend (registry : List (String × RegisteredBackend))
    (s : ManagerState) (name : String) : ManagerState :=
  match CompressionFactory.create_backend registry name with
  | Except.ok b => ManagerState.ready b
  | Except.error _ => s

end CompressionManager

/-- One action the instrumented operation may perform on a live scope:
`set_sizes`, or `set_success` at some timer reading. -/
inductive ScopeEvent where
  | setSizes (input_size output_size : Nat)
  | setSuccess (success : Bool) (error_message : String) (elapsed_ns : Nat)
  deriving DecidableEq, Repr

/-- Applies one event to a scope, collecting the record calls issued. -/
def ScopeEvent.apply (sc : StatisticsScope) :
    ScopeEvent → StatisticsScope × List RecordCall
  | ScopeEvent.setSizes i o => (sc.set_sizes i o, [])
  | ScopeEvent.setSuccess b msg t => sc.set_success t b msg

/-- Runs a list of events over a scope, concatenating the record calls. -/
def runScopeEvents (sc : StatisticsScope) :
    List ScopeEvent → StatisticsScope × List RecordCall
  | [] => (sc, [])
  | e :: rest =>
      let (sc', calls) := e.apply sc
      let (sc'', calls') := runScopeEvents sc' rest
      (sc'', calls ++ calls')

/-- One full `StatisticsScope` lifetime: construction, an arbitrary event
sequence by the operation, then the destructor at timer reading
`final_elapsed_ns`; the result is every record call issued. -/
def scopeLifetime (backend_name backend_version : String)
    (is_compression : Bool) (events : List ScopeEvent)
    (final_elapsed_ns : Nat) : List RecordCall :=
  let sc := StatisticsScope.init backend_name backend_version is_compression
  let (sc', calls) := runScopeEvents sc events
  let (_, calls') := sc'.destruct final_elapsed_ns
  calls ++ calls'

/-- A sequence of `record_compression` calls for one backend, applied in
order. -/
def record_compression_fold (sm : StatisticsManager) (name ver : String)
    (ops : List OperationStats) : StatisticsManager :=
  ops.foldl (fun st op => st.record_compression name ver op) sm

/-- The per-operation-kind counter invariant of the spec:
`successful_X + failed_X == total_X` (in the `uint64_t` arithmetic of the
counters) for compressions and for decompressions. -/
def counter_inv (bs : BackendStats) : Prop :=
  u64add bs.successful_compressions bs.failed_compressions =
    bs.total_compressions ∧
  u64add bs.successful_decompressions bs.failed_decompressions =
    bs.total_decompressions

/-- The claim's formula for `throughput_mbps`, with MB = `10^6` bytes —
stated from the spec's words, for comparison against the source's
computation in `OperationStats.throughput_mbps`. -/
def spec_throughput_mbps (s : OperationStats) : ℚ :=
  if s.duration_ns = 0 then 0
  else ((s.input_size : ℚ) / 10 ^ 6) / ((s.duration_ns : ℚ) / 10 ^ 9)

/-! ## Theorems -/

/-- The boolean heuristic of `NullCompressionBackend::decompress` holds
exactly on buffers longer than one byte whose bytes all equal the first
byte, that byte being `0x00` or `0xFF`. -/
lemma suspicious_iff (data : List Byte) :
    NullCompressionBackend.suspicious data = true ↔
      1 < data.length ∧ (∀ x ∈ data, x = data.headI) ∧
        (data.headI = 0 ∨ data.headI = 255) := by
  cases data with
  | nil => simp [NullCompressionBackend.suspicious]
  | cons b rest =>
      simp only [NullCompressionBackend.suspicious, Bool.and_eq_true,
        Bool.or_eq_true, decide_eq_true_eq, List.all_eq_true, beq_iff_eq,
        List.headI, List.mem_cons, List.length_cons]
      constructor
      · rintro ⟨⟨hlen, hall⟩, hval⟩
        refine ⟨hlen, ?_, hval.symm.imp (fun h => h) (fun h => h)⟩
        rintro x (rfl | hx)
        · rfl
        · exact hall x hx
      · rintro ⟨hlen, hall, hval⟩
        exact ⟨⟨hlen, fun x hx => hall x (Or.inr hx)⟩,
          hval.symm.imp (fun h => h) (fun h => h)⟩

/-- C5: `NullCompressionBackend::decompress` throws `CompressionError`
exactly when the input is longer than one byte, every byte equals the
first byte, and that byte is `0x00` or `0xFF`; every other input (the
non-empty ones in particular) is returned as an exact byte copy. -/
theorem null_decompress_error_iff (data : List Byte) :
    ((∃ e, NullCompressionBackend.decompress data = Except.error e) ↔
      1 < data.length ∧ (∀ x ∈ data, x = data.headI) ∧
        (data.headI = 0 ∨ data.headI = 255)) ∧
    (¬ (1 < data.length ∧ (∀ x ∈ data, x = data.headI) ∧
        (data.headI = 0 ∨ data.headI = 255)) →
      NullCompressionBackend.decompress data = Except.ok data) := by
  constructor
  · rw [← suspicious_iff]
    constructor
    · rintro ⟨e, he⟩
      by_contra hs
      have hs' : NullCompressionBackend.suspicious data = false :=
        Bool.eq_false_iff.mpr (fun h => hs h)
      unfold NullCompressionBackend.decompress at he
      rcases Nat.eq_zero_or_pos data.length with h0 | hpos
      · simp [h0] at he
      · simp [Nat.pos_iff_ne_zero.mp hpos, hs'] at he
    · intro hs
      have hlen : data.length ≠ 0 := by
        rcases (suspicious_iff data).mp hs with ⟨h1, -, -⟩
        omega
      exact ⟨⟨"Null backend detected potentially invalid data"⟩,
        by simp [NullCompressionBackend.decompress, hlen, hs]⟩
  · intro hp
    rw [← suspicious_iff] at hp
    have hs' : NullCompressionBackend.suspicious data = false :=
      Bool.eq_false_iff.mpr (fun h => hp h)
    rcases Nat.eq_zero_or_pos data.length with h0 | hpos
    · have : data = [] := List.length_eq_zero.mp h0
      simp [this, NullCompressionBackend.decompress]
    · simp [NullCompressionBackend.decompress,
        Nat.pos_iff_ne_zero.mp hpos, hs']

set_option maxRecDepth 4000 in
/-- Witness for C5: the all-zero 5-byte buffer is rejected with a
`CompressionError`, and `[1, 2, 3]` is returned unchanged. -/
theorem null_decompress_error_iff_witness :
    (∃ e, NullCompressionBackend.decompress [0, 0, 0, 0, 0] = Except.error e) ∧
    NullCompressionBackend.decompress [1, 2, 3] = Except.ok [1, 2, 3] :=
  ⟨(null_decompress_error_iff [0, 0, 0, 0, 0]).1.mpr (by decide),
   (null_decompress_error_iff [1, 2, 3]).2 (by decide)⟩

/-- C1: decompress after compress is the identity — for the null backend
on every input that is not a uniform run, longer than one byte, of the
single byte `0x00` or `0xFF`, and for the zstd backend (at any level) on
every input. -/
theorem compress_roundtrip (level : Int) (data : List Byte) :
    (¬ (1 < data.length ∧ (∀ x ∈ data, x = data.headI) ∧
        (data.headI = 0 ∨ data.headI = 255)) →
      (NullCompressionBackend.compress data).bind
        NullCompressionBackend.decompress = Except.ok data) ∧
    (ZstdCompressionBackend.compress level data).bind
      ZstdCompressionBackend.decompress = Except.ok data := by
  constructor
  · intro hp
    rw [← suspicious_iff] at hp
    have hs' : NullCompressionBackend.suspicious data = false :=
      Bool.eq_false_iff.mpr (fun h => hp h)
    rcases Nat.eq_zero_or_pos data.length with h0 | hpos
    · have : data = [] := List.length_eq_zero.mp h0
      subst this
      rfl
    · simp [NullCompressionBackend.compress, NullCompressionBackend.decompress,
        Nat.pos_iff_ne_zero.mp hpos, hs', Except.bind]
  · cases data with
    | nil => rfl
    | cons b rest =>
        simp [ZstdCompressionBackend.compress, ZstdCompressionBackend.decompress,
          ZSTD_compressCCtx, ZSTD_getFrameContentSize, ZSTD_decompressDCtx,
          Except.bind]

set_option maxRecDepth 4000 in
/-- Witness for C1: the buffer `[1, 2, 3]` round-trips through both the
null backend and the zstd backend at level 3. -/
theorem compress_roundtrip_witness :
    (NullCompressionBackend.compress [1, 2, 3]).bind
      NullCompressionBackend.decompress = Except.ok [1, 2, 3] ∧
    (ZstdCompressionBackend.compress 3 [1, 2, 3]).bind
      ZstdCompressionBackend.decompress = Except.ok [1, 2, 3] :=
  ⟨(compress_roundtrip 3 [1, 2, 3]).1 (by decide),
   (compress_roundtrip 3 [1, 2, 3]).2⟩

/-- C9: empty input gives empty output without an exception for both
backends — at the raw pointer-overload level (the zstd `compress` returns
the zero-length buffer, modelled by `ZstdBuffer.empty`) and at the
container-overload level of any live backend instance. -/
theorem empty_input_empty_output (level : Int) (b : BackendObj) :
    NullCompressionBackend.compress [] = Except.ok [] ∧
    NullCompressionBackend.decompress [] = Except.ok [] ∧
    ZstdCompressionBackend.compress level [] = Except.ok ZstdBuffer.empty ∧
    ZstdCompressionBackend.decompress ZstdBuffer.empty = Except.ok [] ∧
    b.compressVec [] = (Except.ok (Compressed.raw []), []) ∧
    b.decompressVec (Compressed.raw []) = (Except.ok [], []) :=
  ⟨rfl, rfl, rfl, rfl, rfl, rfl⟩

/-- C10: the manager's vector and string convenience overloads return an
empty result for empty input in every manager state — the empty-input
early return runs before the initialization check, which (as the last
conjunct shows on the pointer overload) would otherwise reject an
uninitialized manager with a `CompressionError`. -/
theorem manager_empty_input (s : ManagerState) :
    CompressionManager.compressVec s [] = (Except.ok (Compressed.raw []), []) ∧
    CompressionManager.decompressVec s (Compressed.raw []) = (Except.ok [], []) ∧
    CompressionManager.compressStr s [] = (Except.ok (Compressed.raw []), []) ∧
    CompressionManager.compressP ManagerState.uninit [] =
      (Except.error ⟨"CompressionManager not initialized"⟩, []) ∧
    CompressionManager.decompressP ManagerState.uninit (Compressed.raw []) =
      (Except.error ⟨"CompressionManager not initialized"⟩, []) :=
  ⟨rfl, rfl, rfl, rfl, rfl⟩

/-- Counterexample to C3 as stated: `get_backend_name` on the
uninitialized manager does not fail with a `CompressionError` — it
returns the string "uninitialized". -/
theorem uninit_get_backend_name_ok :
    CompressionManager.get_backend_name ManagerState.uninit =
      Except.ok "uninitialized" := rfl

/-- C3 amended: on the uninitialized manager, `compress`, `decompress`,
`set_compression_level`, `get_compression_level`, `set_options` and
`get_options` fail with `CompressionError`, while `get_backend_name`
returns "uninitialized", `get_backend_version` returns "unknown", and the
statistics accessors operate without an initialization check
(`get_statistics` returning a default-constructed `BackendStats`,
`enable_statistics` still setting the `StatisticsManager` gate,
`reset_statistics` doing nothing). -/
theorem uninit_manager_behavior (data : List Byte) (c : Compressed)
    (level : Int) (opts : CompressionOptions) (sm : StatisticsManager)
    (enable : Bool) :
    CompressionManager.compressP ManagerState.uninit data =
      (Except.error ⟨"CompressionManager not initialized"⟩, []) ∧
    CompressionManager.decompressP ManagerState.uninit c =
      (Except.error ⟨"CompressionManager not initialized"⟩, []) ∧
    CompressionManager.set_compression_level ManagerState.uninit level =
      Except.error ⟨"CompressionManager not initialized"⟩ ∧
    CompressionManager.get_compression_level ManagerState.uninit =
      Except.error ⟨"CompressionManager not initialized"⟩ ∧
    CompressionManager.set_options ManagerState.uninit opts =
      Except.error ⟨"CompressionManager not initialized"⟩ ∧
    CompressionManager.get_options ManagerState.uninit =
      Except.error ⟨"CompressionManager not initialized"⟩ ∧
    CompressionManager.get_backend_name ManagerState.uninit =
      Except.ok "uninitialized" ∧
    CompressionManager.get_backend_version ManagerState.uninit =
      Except.ok "unknown" ∧
    CompressionManager.enable_statistics ManagerState.uninit sm enable =
      Except.ok (ManagerState.uninit, sm.enable_statistics enable) ∧
    CompressionManager.is_statistics_enabled ManagerState.uninit sm =
      Except.ok sm.enabled ∧
    CompressionManager.get_statistics ManagerState.uninit sm =
      Except.ok {} ∧
    CompressionManager.get_global_statistics ManagerState.uninit sm =
      Except.ok sm.global ∧
    CompressionManager.reset_statistics ManagerState.uninit sm =
      Except.ok sm ∧
    CompressionManager.reset_global_statistics ManagerState.uninit sm =
      Except.ok sm.reset_all_stats :=
  ⟨rfl, rfl, rfl, rfl, rfl, rfl, rfl, rfl, rfl, rfl, rfl, rfl, rfl, rfl⟩

/-- C2 divergence: on an initialized manager holding the null backend
with its statistics flag enabled, `CompressionManager::compress` /
`decompress` of `[1, 2, 3]` call the backend's raw pointer-overload
entry points and issue no statistics record, while the backend's
statistics-wrapped entry points at the same input issue exactly one
record each — the manager does not route through them. -/
theorem manager_bypasses_statistics :
    CompressionManager.compressP
        (ManagerState.ready { kind := BackendKind.null, level := 0 }) [1, 2, 3] =
      (Except.ok (Compressed.raw [1, 2, 3]), []) ∧
    CompressionManager.decompressP
        (ManagerState.ready { kind := BackendKind.null, level := 0 })
        (Compressed.raw [1, 2, 3]) =
      (Except.ok [1, 2, 3], []) ∧
    (BackendObj.compress_with_statistics
        { kind := BackendKind.null, level := 0 } [1, 2, 3]).2.length = 1 ∧
    (BackendObj.decompress_with_statistics
        { kind := BackendKind.null, level := 0 }
        (Compressed.raw [1, 2, 3])).2.length = 1 :=
  ⟨rfl, rfl, rfl, rfl⟩

/-- C4: whenever construction of the requested backend fails,
`switch_backend` leaves the manager state — and in particular
`get_backend_name` — unchanged, and the failure is swallowed. -/
theorem switch_backend_failure_keeps_state
    (registry : List (String × RegisteredBackend)) (s : ManagerState)
    (name : String)
    (h : ∃ e, CompressionFactory.create_backend registry name = Except.error e) :
    CompressionManager.switch_backend registry s name = s ∧
    CompressionManager.get_backend_name
        (CompressionManager.switch_backend registry s name) =
      CompressionManager.get_backend_name s := by
  obtain ⟨e, he⟩ := h
  have hs : CompressionManager.switch_backend registry s name = s := by
    unfold CompressionManager.switch_backend
    rw [he]
  exact ⟨hs, by rw [hs]⟩

/-- Witness for C4: with the registered backends and a manager holding
the null backend, switching to the unregistered name "nonexistent"
changes nothing. -/
theorem switch_backend_failure_keeps_state_witness :
    CompressionManager.switch_backend (goetheRegistry true)
        (ManagerState.ready (mkBackendObj BackendKind.null)) "nonexistent" =
      ManagerState.ready (mkBackendObj BackendKind.null) ∧
    CompressionManager.get_backend_name
        (CompressionManager.switch_backend (goetheRegistry true)
          (ManagerState.ready (mkBackendObj BackendKind.null)) "nonexistent") =
      CompressionManager.get_backend_name
        (ManagerState.ready (mkBackendObj BackendKind.null)) :=
  switch_backend_failure_keeps_state (goetheRegistry true)
    (ManagerState.ready (mkBackendObj BackendKind.null)) "nonexistent"
    ⟨⟨"Unknown compression backend: nonexistent"⟩, rfl⟩

/-- Once a scope has recorded, further events issue no record call and
leave the `recorded` flag set. -/
lemma runScopeEvents_recorded (events : List ScopeEvent) :
    ∀ sc : StatisticsScope, sc.recorded = true →
      (runScopeEvents sc events).1.recorded = true ∧
        (runScopeEvents sc events).2 = [] := by
  induction events with
  | nil => intro sc h; exact ⟨h, rfl⟩
  | cons e rest ih =>
      intro sc h
      cases e with
      | setSizes i o =>
          have h' : (sc.set_sizes i o).recorded = true := h
          simpa [runScopeEvents, ScopeEvent.apply] using ih _ h'
      | setSuccess b msg t =>
          simpa [runScopeEvents, ScopeEvent.apply, StatisticsScope.set_success,
            h] using ih _ h

/-- Running events on an unrecorded scope issues no record call while the
scope stays unrecorded, or exactly one record call after which the scope
is recorded. -/
lemma runScopeEvents_unrecorded (events : List ScopeEvent) :
    ∀ sc : StatisticsScope, sc.recorded = false →
      ((runScopeEvents sc events).1.recorded = false ∧
        (runScopeEvents sc events).2 = []) ∨
      ((runScopeEvents sc events).1.recorded = true ∧
        (runScopeEvents sc events).2.length = 1) := by
  induction events with
  | nil => intro sc h; exact Or.inl ⟨h, rfl⟩
  | cons e rest ih =>
      intro sc h
      cases e with
      | setSizes i o =>
          have h' : (sc.set_sizes i o).recorded = false := h
          simpa [runScopeEvents, ScopeEvent.apply] using ih _ h'
      | setSuccess b msg t =>
          have hrec :
              ((sc.set_success t b msg).1.recorded = true ∧
                (sc.set_success t b msg).2 =
                  [{ backend_name := sc.backend_name,
                     backend_version := sc.backend_version,
                     is_compression := sc.is_compression,
                     stats := create_operation_stats sc.input_size
                       sc.output_size t b msg }]) := by
            simp [StatisticsScope.set_success, h]
          obtain ⟨h1, h2⟩ := hrec
          have := runScopeEvents_recorded rest _ h1
          refine Or.inr ?_
          simp only [runScopeEvents, ScopeEvent.apply]
          rcases hp : sc.set_success t b msg with ⟨sc', calls⟩
          rw [hp] at h1 h2
          rcases hq : runScopeEvents sc' rest with ⟨sc'', calls'⟩
          rw [hp, hq] at this
          simp only at this ⊢
          subst h2
          exact ⟨this.1, by simp [this.2]⟩

/-- Events that never call `set_success` leave the scope unrecorded and
issue no record call. -/
lemma runScopeEvents_no_setSuccess (events : List ScopeEvent) :
    ∀ sc : StatisticsScope,
      (∀ e ∈ events, ∀ b msg t, e ≠ ScopeEvent.setSuccess b msg t) →
      (runScopeEvents sc events).1.recorded = sc.recorded ∧
        (runScopeEvents sc events).2 = [] := by
  induction events with
  | nil => intro sc _; exact ⟨rfl, rfl⟩
  | cons e rest ih =>
      intro sc hnone
      cases e with
      | setSizes i o =>
          have h' := ih (sc.set_sizes i o)
            (fun e he => hnone e (List.mem_cons_of_mem _ he))
          simpa [runScopeEvents, ScopeEvent.apply, StatisticsScope.set_sizes]
            using h'
      | setSuccess b msg t =>
          exact absurd rfl (hnone _ (List.mem_cons_self _ _) b msg t)

/-- C6: every `StatisticsScope` lifetime — construction, any sequence of
`set_sizes`/`set_success` calls by the operation, then destruction —
issues exactly one record call to the `StatisticsManager`; when the
operation never calls `set_success`, that record is the destructor's
failure record with message "Operation not completed"; and `set_success`
on an already-recorded scope is a no-op. -/
theorem scope_exactly_one_record (backend_name backend_version : String)
    (is_compression : Bool) (events : List ScopeEvent)
    (final_elapsed_ns : Nat) :
    (scopeLifetime backend_name backend_version is_compression events
        final_elapsed_ns).length = 1 ∧
    ((∀ e ∈ events, ∀ b msg t, e ≠ ScopeEvent.setSuccess b msg t) →
      ∃ call, scopeLifetime backend_name backend_version is_compression
          events final_elapsed_ns = [call] ∧
        call.stats.success = false ∧
        call.stats.error_message = "Operation not completed") ∧
    (∀ (sc : StatisticsScope) (t : Nat) (b : Bool) (msg : String),
      sc.recorded = true → sc.set_success t b msg = (sc, [])) := by
  refine ⟨?_, ?_, ?_⟩
  · have h0 : (StatisticsScope.init backend_name backend_version
        is_compression).recorded = false := rfl
    rcases runScopeEvents_unrecorded events _ h0 with ⟨h1, h2⟩ | ⟨h1, h2⟩
    · simp only [scopeLifetime]
      rcases hq : runScopeEvents (StatisticsScope.init backend_name
        backend_version is_compression) events with ⟨sc', calls⟩
      rw [hq] at h1 h2
      simp only at h1 h2
      subst h2
      simp [StatisticsScope.destruct, StatisticsScope.set_success, h1]
    · simp only [scopeLifetime]
      rcases hq : runScopeEvents (StatisticsScope.init backend_name
        backend_version is_compression) events with ⟨sc', calls⟩
      rw [hq] at h1 h2
      simp only at h1 h2
      simp [StatisticsScope.destruct, h1, h2]
  · intro hnone
    have h := runScopeEvents_no_setSuccess events
      (StatisticsScope.init backend_name backend_version is_compression) hnone
    simp only [scopeLifetime]
    rcases hq : runScopeEvents (StatisticsScope.init backend_name
      backend_version is_compression) events with ⟨sc', calls⟩
    rw [hq] at h
    simp only at h
    obtain ⟨h1, h2⟩ := h
    subst h2
    have h1' : sc'.recorded = false := h1
    refine ⟨{ backend_name := sc'.backend_name,
              backend_version := sc'.backend_version,
              is_compression := sc'.is_compression,
              stats := create_operation_stats sc'.input_size sc'.output_size
                final_elapsed_ns false "Operation not completed" },
      ?_, rfl, rfl⟩
    simp [StatisticsScope.destruct, StatisticsScope.set_success, h1']
  · intro sc t b msg h
    simp [StatisticsScope.set_success, h]

/-- Witness for C6: a lifetime whose operation sets sizes but never
reports success yields exactly the destructor's failure record. -/
theorem scope_exactly_one_record_witness :
    (scopeLifetime "null" "1.0.0" true [ScopeEvent.setSizes 5 5] 100).length
        = 1 ∧
    (∃ call, scopeLifetime "null" "1.0.0" true [ScopeEvent.setSizes 5 5] 100
        = [call] ∧ call.stats.success = false ∧
      call.stats.error_message = "Operation not completed") := by
  have h := scope_exactly_one_record "null" "1.0.0" true
    [ScopeEvent.setSizes 5 5] 100
  exact ⟨h.1, h.2.1 (by intro e he b msg t; fin_cases he; simp)⟩

/-! ### C7: counter invariants of the statistics manager -/

/-- Storing an entry makes it the one found for that name. -/
lemma lookupStats_storeStats (m : List (String × BackendStats))
    (name : String) (bs : BackendStats) :
    StatisticsManager.lookupStats (StatisticsManager.storeStats m name bs)
      name = some bs := by
  induction m with
  | nil => simp [StatisticsManager.storeStats, StatisticsManager.lookupStats]
  | cons p rest ih =>
      obtain ⟨k, v⟩ := p
      by_cases hk : k == name
      · simp [StatisticsManager.storeStats, StatisticsManager.lookupStats, hk]
      · simpa [StatisticsManager.storeStats, StatisticsManager.lookupStats,
          hk] using ih

/-- Resetting all statistics resets each entry in place. -/
lemma lookupStats_reset_map (m : List (String × BackendStats))
    (name : String) :
    StatisticsManager.lookupStats (m.map (fun p => (p.1, p.2.reset))) name =
      (StatisticsManager.lookupStats m name).map BackendStats.reset := by
  induction m with
  | nil => simp [StatisticsManager.lookupStats]
  | cons p rest ih =>
      obtain ⟨k, v⟩ := p
      by_cases hk : k == name
      · simp [StatisticsManager.lookupStats, hk]
      · simpa [StatisticsManager.lookupStats, hk] using ih

/-- On an enabled manager, a `record_compression` call updates the named
entry by the name/version stamp followed by the compression counter
updates. -/
lemma record_compression_get (sm : StatisticsManager) (name ver : String)
    (op : OperationStats) (h : sm.enabled = true) :
    (sm.record_compression name ver op).get_backend_stats name =
      ({ sm.get_backend_stats name with
          backend_name := name, backend_version := ver }).applyCompression
        op := by
  simp [StatisticsManager.record_compression, h,
    StatisticsManager.get_backend_stats, lookupStats_storeStats]

/-- The enabled gate is untouched by `record_compression`. -/
lemma record_compression_enabled (sm : StatisticsManager) (name ver : String)
    (op : OperationStats) :
    (sm.record_compression name ver op).enabled = sm.enabled := by
  by_cases h : sm.enabled <;>
    simp [StatisticsManager.record_compression, h]

/-- Counter bookkeeping of one `applyCompression` step. -/
lemma applyCompression_counters (bs : BackendStats) (op : OperationStats) :
    (bs.applyCompression op).total_compressions =
      u64add bs.total_compressions 1 ∧
    (bs.applyCompression op).successful_compressions =
      (if op.success then u64add bs.successful_compressions 1
       else bs.successful_compressions) ∧
    (bs.applyCompression op).failed_compressions =
      (if op.success then bs.failed_compressions
       else u64add bs.failed_compressions 1) ∧
    (bs.applyCompression op).total_decompressions =
      bs.total_decompressions ∧
    (bs.applyCompression op).successful_decompressions =
      bs.successful_decompressions ∧
    (bs.applyCompression op).failed_decompressions =
      bs.failed_decompressions := by
  cases h : op.success <;> simp [BackendStats.applyCompression, h]

/-- Folding `record_compression` calls over an enabled manager adds the
operation count to `total_compressions` and splits it into the success
and failure counts, leaving the decompression counters alone — provided
no `uint64_t` counter wraps. -/
lemma fold_record_counters (name ver : String) :
    ∀ (ops : List OperationStats) (sm : StatisticsManager),
      sm.enabled = true →
      (sm.get_backend_stats name).total_compressions + ops.length < 2 ^ 64 →
      (sm.get_backend_stats name).successful_compressions +
        (ops.filter (fun op => op.success)).length < 2 ^ 64 →
      (sm.get_backend_stats name).failed_compressions +
        (ops.filter (fun op => ! op.success)).length < 2 ^ 64 →
      ((record_compression_fold sm name ver ops).get_backend_stats
          name).total_compressions =
        (sm.get_backend_stats name).total_compressions + ops.length ∧
      ((record_compression_fold sm name ver ops).get_backend_stats
          name).successful_compressions =
        (sm.get_backend_stats name).successful_compressions +
          (ops.filter (fun op => op.success)).length ∧
      ((record_compression_fold sm name ver ops).get_backend_stats
          name).failed_compressions =
        (sm.get_backend_stats name).failed_compressions +
          (ops.filter (fun op => ! op.success)).length ∧
      ((record_compression_fold sm name ver ops).get_backend_stats
          name).total_decompressions =
        (sm.get_backend_stats name).total_decompressions ∧
      ((record_compression_fold sm name ver ops).get_backend_stats
          name).successful_decompressions =
        (sm.get_backend_stats name).successful_decompressions := by
  intro ops
  induction ops with
  | nil =>
      intro sm h _ _ _
      exact ⟨by simp [record_compression_fold],
        by simp [record_compression_fold],
        by simp [record_compression_fold],
        by simp [record_compression_fold],
        by simp [record_compression_fold]⟩
  | cons op rest ih =>
      intro sm h htot hsucc hfail
      have hstep := record_compression_get sm name ver op h
      have henabled' := (record_compression_enabled sm name ver op).trans h
      have hfold : record_compression_fold sm name ver (op :: rest) =
          record_compression_fold (sm.record_compression name ver op) name
            ver rest := rfl
      obtain ⟨ct, cs, cf, cd, csd, cfd⟩ := applyCompression_counters
        ({ sm.get_backend_stats name with
            backend_name := name, backend_version := ver }) op
      have bt : ((sm.record_compression name ver op).get_backend_stats
          name).total_compressions =
          (sm.get_backend_stats name).total_compressions + 1 := by
        rw [hstep, ct]
        have : (sm.get_backend_stats name).total_compressions + 1 < 2 ^ 64 := by
          simp at htot; omega
        simpa [u64add] using Nat.mod_eq_of_lt this
      have bs' : ((sm.record_compression name ver op).get_backend_stats
          name).successful_compressions =
          (sm.get_backend_stats name).successful_compressions +
            (if op.success then 1 else 0) := by
        rw [hstep, cs]
        cases hos : op.success
        · simp
        · have : (sm.get_backend_stats name).successful_compressions + 1
              < 2 ^ 64 := by
            simp [hos, List.filter] at hsucc; omega
          simpa [u64add] using Nat.mod_eq_of_lt this
      have bf : ((sm.record_compression name ver op).get_backend_stats
          name).failed_compressions =
          (sm.get_backend_stats name).failed_compressions +
            (if op.success then 0 else 1) := by
        rw [hstep, cf]
        cases hos : op.success
        · have : (sm.get_backend_stats name).failed_compressions + 1
              < 2 ^ 64 := by
            simp [hos, List.filter] at hfail; omega
          simpa [u64add] using Nat.mod_eq_of_lt this
        · simp
      have bd : ((sm.record_compression name ver op).get_backend_stats
          name).total_decompressions =
          (sm.get_backend_stats name).total_decompressions := by
        rw [hstep, cd]
      have bsd : ((sm.record_compression name ver op).get_backend_stats
          name).successful_decompressions =
          (sm.get_backend_stats name).successful_decompressions := by
        rw [hstep, csd]
      have hrest := ih (sm.record_compression name ver op) henabled'
        (by rw [bt]; simp at htot ⊢; omega)
        (by rw [bs']; cases hos : op.success <;>
              simp [hos, List.filter] at hsucc ⊢ <;> omega)
        (by rw [bf]; cases hos : op.success <;>
              simp [hos, List.filter] at hfail ⊢ <;> omega)
      rw [hfold]
      refine ⟨?_, ?_, ?_, ?_, ?_⟩
      · rw [hrest.1, bt]; simp; omega
      · rw [hrest.2.1, bs']; cases hos : op.success <;>
          (simp [hos, List.filter]; try omega)
      · rw [hrest.2.2.1, bf]; cases hos : op.success <;>
          (simp [hos, List.filter]; try omega)
      · rw [hrest.2.2.2.1, bd]
      · rw [hrest.2.2.2.2, bsd]

/-- After `reset_all_stats`, the entry returned for any name has all
counters zero. -/
lemma reset_all_get_zero (sm : StatisticsManager) (name : String) :
    ((sm.reset_all_stats).get_backend_stats name).total_compressions = 0 ∧
    ((sm.reset_all_stats).get_backend_stats name).successful_compressions
      = 0 ∧
    ((sm.reset_all_stats).get_backend_stats name).failed_compressions = 0 ∧
    ((sm.reset_all_stats).get_backend_stats name).total_decompressions
      = 0 ∧
    ((sm.reset_all_stats).get_backend_stats name).successful_decompressions
      = 0 := by
  unfold StatisticsManager.reset_all_stats StatisticsManager.get_backend_stats
  rw [show (StatisticsManager.mk sm.enabled
      (sm.backends.map fun p => (p.1, p.2.reset)) sm.global.reset).backends =
      sm.backends.map (fun p => (p.1, p.2.reset)) from rfl,
    lookupStats_reset_map]
  cases StatisticsManager.lookupStats sm.backends name <;>
    simp [BackendStats.reset]

/-- The success and failure counts of an operation list partition its
length. -/
lemma filter_success_partition (ops : List OperationStats) :
    (ops.filter (fun op => op.success)).length +
      (ops.filter (fun op => ! op.success)).length = ops.length := by
  induction ops with
  | nil => rfl
  | cons op rest ih =>
      cases h : op.success <;> simp [h, List.filter_cons] <;> omega

/-- Counter bookkeeping of one `applyDecompression` step. -/
lemma applyDecompression_counters (bs : BackendStats) (op : OperationStats) :
    (bs.applyDecompression op).total_decompressions =
      u64add bs.total_decompressions 1 ∧
    (bs.applyDecompression op).successful_decompressions =
      (if op.success then u64add bs.successful_decompressions 1
       else bs.successful_decompressions) ∧
    (bs.applyDecompression op).failed_decompressions =
      (if op.success then bs.failed_decompressions
       else u64add bs.failed_decompressions 1) ∧
    (bs.applyDecompression op).total_compressions =
      bs.total_compressions ∧
    (bs.applyDecompression op).successful_compressions =
      bs.successful_compressions ∧
    (bs.applyDecompression op).failed_compressions =
      bs.failed_compressions := by
  cases h : op.success <;> simp [BackendStats.applyDecompression, h]

/-- One wrap-around increment on each side of the invariant preserves
it. -/
lemma u64add_succ_both (s f t : Nat) (h : u64add s f = t) :
    u64add (u64add s 1) f = u64add t 1 := by
  subst h
  simp only [u64add, Nat.mod_add_mod, Nat.add_mod_left]
  congr 1
  omega

/-- One wrap-around increment of the right summand preserves the
invariant as well. -/
lemma u64add_succ_right (s f t : Nat) (h : u64add s f = t) :
    u64add s (u64add f 1) = u64add t 1 := by
  subst h
  simp only [u64add, Nat.add_mod_mod, Nat.mod_add_mod]
  congr 1

/-- The counter invariant survives an `applyCompression` step. -/
lemma counter_inv_applyCompression (bs : BackendStats)
    (op : OperationStats) (h : counter_inv bs) :
    counter_inv (bs.applyCompression op) := by
  obtain ⟨h1, h2⟩ := h
  obtain ⟨ct, cs, cf, cd, csd, cfd⟩ := applyCompression_counters bs op
  constructor
  · rw [cs, cf, ct]
    cases hos : op.success
    · rw [if_neg Bool.false_ne_true, if_neg Bool.false_ne_true]
      exact u64add_succ_right _ _ _ h1
    · rw [if_pos rfl, if_pos rfl]
      exact u64add_succ_both _ _ _ h1
  · rw [cd, csd, cfd]
    exact h2

/-- The counter invariant survives an `applyDecompression` step. -/
lemma counter_inv_applyDecompression (bs : BackendStats)
    (op : OperationStats) (h : counter_inv bs) :
    counter_inv (bs.applyDecompression op) := by
  obtain ⟨h1, h2⟩ := h
  obtain ⟨ct, cs, cf, cd, csd, cfd⟩ := applyDecompression_counters bs op
  constructor
  · rw [cd, csd, cfd]
    exact h1
  · rw [cs, cf, ct]
    cases hos : op.success
    · rw [if_neg Bool.false_ne_true, if_neg Bool.false_ne_true]
      exact u64add_succ_right _ _ _ h2
    · rw [if_pos rfl, if_pos rfl]
      exact u64add_succ_both _ _ _ h2

/-- On an enabled manager, a `record_decompression` call updates the
named entry by the name/version stamp followed by the decompression
counter updates. -/
lemma record_decompression_get (sm : StatisticsManager) (name ver : String)
    (op : OperationStats) (h : sm.enabled = true) :
    (sm.record_decompression name ver op).get_backend_stats name =
      ({ sm.get_backend_stats name with
          backend_name := name, backend_version := ver }).applyDecompression
        op := by
  simp [StatisticsManager.record_decompression, h,
    StatisticsManager.get_backend_stats, lookupStats_storeStats]

/-- The name/version stamp leaves every counter alone. -/
lemma counter_inv_stamp (bs : BackendStats) (name ver : String) :
    counter_inv ({ bs with backend_name := name, backend_version := ver })
      ↔ counter_inv bs := by
  simp [counter_inv]

/-- Effect of `record_compression` on the global aggregate. -/
lemma record_compression_global (sm : StatisticsManager) (name ver : String)
    (op : OperationStats) :
    (sm.record_compression name ver op).global =
      (if sm.enabled then sm.global.applyCompression op else sm.global) := by
  by_cases h : sm.enabled <;>
    simp [StatisticsManager.record_compression, h]

/-- Effect of `record_decompression` on the global aggregate. -/
lemma record_decompression_global (sm : StatisticsManager)
    (name ver : String) (op : OperationStats) :
    (sm.record_decompression name ver op).global =
      (if sm.enabled then sm.global.applyDecompression op else sm.global) := by
  by_cases h : sm.enabled <;>
    simp [StatisticsManager.record_decompression, h]

/-- A disabled manager ignores `record_compression`. -/
lemma record_compression_disabled (sm : StatisticsManager)
    (name ver : String) (op : OperationStats) (h : sm.enabled = false) :
    sm.record_compression name ver op = sm := by
  simp [StatisticsManager.record_compression, h]

/-- A disabled manager ignores `record_decompression`. -/
lemma record_decompression_disabled (sm : StatisticsManager)
    (name ver : String) (op : OperationStats) (h : sm.enabled = false) :
    sm.record_decompression name ver op = sm := by
  simp [StatisticsManager.record_decompression, h]

/-- C7: starting from freshly reset statistics on an enabled manager,
recording N successful and M failed compressions for one backend (and no
decompressions) yields `total_compressions = N + M`,
`successful_compressions = N`, `failed_compressions = M` and
`success_rate = 100 * N / (N + M)` (100 when `N + M = 0`), provided the
`uint64_t` counters do not wrap; and in general every `record_compression`
/ `record_decompression` call preserves
`successful_X + failed_X = total_X` for both operation kinds, on the
updated backend entry and on the global aggregate. -/
theorem stats_counter_invariants (sm : StatisticsManager) (name ver : String)
    (ops : List OperationStats) (henabled : sm.enabled = true)
    (hlen : ops.length < 2 ^ 64) :
    ((record_compression_fold sm.reset_all_stats name ver
        ops).get_backend_stats name).total_compressions =
      (ops.filter (fun op => op.success)).length +
        (ops.filter (fun op => ! op.success)).length ∧
    ((record_compression_fold sm.reset_all_stats name ver
        ops).get_backend_stats name).successful_compressions =
      (ops.filter (fun op => op.success)).length ∧
    ((record_compression_fold sm.reset_all_stats name ver
        ops).get_backend_stats name).failed_compressions =
      (ops.filter (fun op => ! op.success)).length ∧
    ((record_compression_fold sm.reset_all_stats name ver
        ops).get_backend_stats name).success_rate =
      (if (ops.filter (fun op => op.success)).length +
          (ops.filter (fun op => ! op.success)).length = 0 then (100 : ℚ)
       else 100 * ((ops.filter (fun op => op.success)).length : ℚ) /
        (((ops.filter (fun op => op.success)).length : ℚ) +
          ((ops.filter (fun op => ! op.success)).length : ℚ))) ∧
    (∀ (sm' : StatisticsManager) (n v : String) (op : OperationStats),
      counter_inv (sm'.get_backend_stats n) →
        counter_inv ((sm'.record_compression n v op).get_backend_stats n) ∧
        counter_inv ((sm'.record_decompression n v op).get_backend_stats n)) ∧
    (∀ (sm' : StatisticsManager) (n v : String) (op : OperationStats),
      counter_inv sm'.global →
        counter_inv (sm'.record_compression n v op).global ∧
        counter_inv (sm'.record_decompression n v op).global) := by
  have hpart := filter_success_partition ops
  have hN : (ops.filter (fun op => op.success)).length ≤ ops.length :=
    List.length_filter_le _ _
  have hM : (ops.filter (fun op => ! op.success)).length ≤ ops.length :=
    List.length_filter_le _ _
  obtain ⟨z1, z2, z3, z4, z5⟩ := reset_all_get_zero sm name
  have henabled' : (sm.reset_all_stats).enabled = true := henabled
  have hmain := fold_record_counters name ver ops sm.reset_all_stats
    henabled' (by rw [z1]; omega) (by rw [z2]; omega) (by rw [z3]; omega)
  obtain ⟨ht, hs, hf, htd, hsd⟩ := hmain
  rw [z1, Nat.zero_add] at ht
  rw [z2, Nat.zero_add] at hs
  rw [z3, Nat.zero_add] at hf
  rw [z4] at htd
  rw [z5] at hsd
  have htNM : ((record_compression_fold sm.reset_all_stats name ver
      ops).get_backend_stats name).total_compressions =
      (ops.filter (fun op => op.success)).length +
        (ops.filter (fun op => ! op.success)).length := by
    rw [ht, ← hpart]
  refine ⟨htNM, hs, hf, ?_, ?_, ?_⟩
  · rw [BackendStats.success_rate]
    rw [htNM, htd, hs, hsd]
    have hu1 : u64add ((ops.filter (fun op => op.success)).length +
        (ops.filter (fun op => ! op.success)).length) 0 =
        (ops.filter (fun op => op.success)).length +
          (ops.filter (fun op => ! op.success)).length := by
      simp only [u64add, Nat.add_zero]
      exact Nat.mod_eq_of_lt (by omega)
    have hu2 : u64add ((ops.filter (fun op => op.success)).length) 0 =
        (ops.filter (fun op => op.success)).length := by
      simp only [u64add, Nat.add_zero]
      exact Nat.mod_eq_of_lt (by omega)
    simp only [hu1, hu2]
    by_cases hz : (ops.filter (fun op => op.success)).length +
        (ops.filter (fun op => ! op.success)).length = 0
    · rw [if_pos hz, if_pos hz]
    · rw [if_neg hz, if_neg hz]
      push_cast
      ring
  · intro sm' n v op hinv
    rcases hen : sm'.enabled with _ | _
    · rw [record_compression_disabled sm' n v op hen,
        record_decompression_disabled sm' n v op hen]
      exact ⟨hinv, hinv⟩
    · constructor
      · rw [record_compression_get sm' n v op hen]
        exact counter_inv_applyCompression _ op
          ((counter_inv_stamp _ n v).mpr hinv)
      · rw [record_decompression_get sm' n v op hen]
        exact counter_inv_applyDecompression _ op
          ((counter_inv_stamp _ n v).mpr hinv)
  · intro sm' n v op hinv
    rcases hen : sm'.enabled with _ | _
    · rw [record_compression_disabled sm' n v op hen,
        record_decompression_disabled sm' n v op hen]
      exact ⟨hinv, hinv⟩
    · rw [record_compression_global, record_decompression_global, hen]
      exact ⟨counter_inv_applyCompression _ op (by simpa using hinv),
        counter_inv_applyDecompression _ op (by simpa using hinv)⟩

/-- Witness for C7: three successes and two failures recorded on a fresh
manager give five total compressions, three successful, two failed, and a
success rate of 60 percent. -/
theorem stats_counter_invariants_witness :
    ((record_compression_fold (StatisticsManager.reset_all_stats {}) "null"
        "1.0.0"
        [{ input_size := 100, output_size := 25, duration_ns := 10,
           success := true, error_message := "" },
         { input_size := 100, output_size := 25, duration_ns := 10,
           success := true, error_message := "" },
         { input_size := 100, output_size := 25, duration_ns := 10,
           success := true, error_message := "" },
         { input_size := 100, output_size := 0, duration_ns := 10,
           success := false, error_message := "boom" },
         { input_size := 100, output_size := 0, duration_ns := 10,
           success := false, error_message := "boom" }]).get_backend_stats
      "null").total_compressions = 5 ∧
    ((record_compression_fold (StatisticsManager.reset_all_stats {}) "null"
        "1.0.0"
        [{ input_size := 100, output_size := 25, duration_ns := 10,
           success := true, error_message := "" },
         { input_size := 100, output_size := 25, duration_ns := 10,
           success := true, error_message := "" },
         { input_size := 100, output_size := 25, duration_ns := 10,
           success := true, error_message := "" },
         { input_size := 100, output_size := 0, duration_ns := 10,
           success := false, error_message := "boom" },
         { input_size := 100, output_size := 0, duration_ns := 10,
           success := false, error_message := "boom" }]).get_backend_stats
      "null").success_rate = 60 := by
  have h := stats_counter_invariants {} "null" "1.0.0"
    [{ input_size := 100, output_size := 25, duration_ns := 10,
       success := true, error_message := "" },
     { input_size := 100, output_size := 25, duration_ns := 10,
       success := true, error_message := "" },
     { input_size := 100, output_size := 25, duration_ns := 10,
       success := true, error_message := "" },
     { input_size := 100, output_size := 0, duration_ns := 10,
       success := false, error_message := "boom" },
     { input_size := 100, output_size := 0, duration_ns := 10,
       success := false, error_message := "boom" }] rfl (by decide)
  refine ⟨?_, ?_⟩
  · rw [h.1]
    decide
  · rw [h.2.2.2.1]
    norm_num [List.filter_cons]

/-- Counterexample to C8 as stated: for one megabyte moved in one second,
the source's `throughput_mbps` does not equal the claim's MB-based
formula — the source divides by `1024.0 * 1024.0`, not by `10^6`. -/
theorem throughput_mbps_not_mb_based :
    OperationStats.throughput_mbps
        { input_size := 1000000, output_size := 250000,
          duration_ns := 1000000000, success := true, error_message := "" } ≠
      spec_throughput_mbps
        { input_size := 1000000, output_size := 250000,
          duration_ns := 1000000000, success := true, error_message := "" } := by
  simp only [OperationStats.throughput_mbps, spec_throughput_mbps]
  norm_num

/-- C8 amended: `throughput_mbps` and `throughput_mibps` compute the same
value — the input size in MiB (`2^20` bytes) divided by the elapsed
seconds — and both return 0 when the duration is 0. -/
theorem throughput_mbps_eq_mibps (s : OperationStats) :
    s.throughput_mbps = s.throughput_mibps ∧
    (s.duration_ns = 0 →
      s.throughput_mbps = 0 ∧ s.throughput_mibps = 0) ∧
    (s.duration_ns ≠ 0 →
      s.throughput_mbps * ((s.duration_ns : ℚ) / 10 ^ 9) =
        (s.input_size : ℚ) / 2 ^ 20) := by
  refine ⟨rfl, ?_, ?_⟩
  · intro h
    constructor <;>
      simp [OperationStats.throughput_mbps, OperationStats.throughput_mibps, h]
  · intro h
    have hq : ((s.duration_ns : ℚ) / 10 ^ 9) ≠ 0 :=
      div_ne_zero (Nat.cast_ne_zero.mpr h) (by norm_num)
    rw [OperationStats.throughput_mbps, if_neg h, div_mul_cancel₀ _ hq]
    norm_num

/-- Witness for C8: at one megabyte in one second the two throughput
functions agree and multiply back to the MiB count. -/
theorem throughput_mbps_eq_mibps_witness :
    OperationStats.throughput_mbps
        { input_size := 1000000, output_size := 250000,
          duration_ns := 1000000000, success := true, error_message := "" } =
      OperationStats.throughput_mibps
        { input_size := 1000000, output_size := 250000,
          duration_ns := 1000000000, success := true, error_message := "" } ∧
    OperationStats.throughput_mbps
        { input_size := 1000000, output_size := 250000,
          duration_ns := 1000000000, success := true, error_message := "" } *
        (((1000000000 : Nat) : ℚ) / 10 ^ 9) =
      ((1000000 : Nat) : ℚ) / 2 ^ 20 :=
  ⟨(throughput_mbps_eq_mibps _).1,
   (throughput_mbps_eq_mibps
      { input_size := 1000000, output_size := 250000,
        duration_ns := 1000000000, success := true,
        error_message := "" }).2.2 (by norm_num)⟩

end goethe
